import Mathlib

/-!
Shallow embedding of the payment settlement and payout pipeline of the
OmniGO marketplace (convex/paymentsActions.ts, convex/reports.ts).

External calls (Pi platform API, Stellar/Horizon chain submission, profile
and store queries) are modelled by oracle fields in environment records,
and every observable side effect (ledger mutations, outbound network
calls, scheduled retries) is returned in an explicit effect list, so each
handler becomes a pure function from its environment and the relevant
database state to a result, the new database state and the effect trace.

Amounts are modelled as exact rationals; the JavaScript float operations
that matter here (multiplication by a commission fraction, rounding to six
decimal places) agree with exact rational arithmetic at every amount the
claims evaluate.
-/

/-- JavaScript truthiness for an optional string: absent and empty strings
are falsy, everything else truthy. -/
def jsTruthy : Option String → Bool
  | none => false
  | some s => !(s == "")

/-- JavaScript string coalescing operand: an empty string behaves as
absent, mirroring the or-operator treating the empty string as falsy. -/
def jsStr : Option String → Option String
  | none => none
  | some s => if s == "" then none else some s

/-- Status of a PaymentRecord, as written by the payments actions
(approved, completed, cancelled, failed). -/
inductive PaymentStatus
  | approved
  | completed
  | cancelled
  | failed
  deriving DecidableEq, Repr

/-- The slice of a PaymentRecord that completePiPayment reads and writes:
its status and its chain transaction id. -/
structure PaymentView where
  status : PaymentStatus
  txid : Option String
  deriving DecidableEq, Repr

/-- Oracle environment for completePiPayment: the configured API key, the
outcome of the provider complete call, the outcome of the follow-up
payment-details fetch (with the transaction id the provider reports), and
the outcome of the order-fulfillment mutation. -/
structure CompleteEnv where
  piApiKey : Option String
  completeOk : Bool
  completeErrMsg : String
  fetchOk : Bool
  fetchErrMsg : String
  providerTxid : Option String
  processOk : Bool
  processErrMsg : String
  deriving DecidableEq, Repr

/-- Observable effects of completePiPayment: the provider complete call,
the payment-details fetch, each updatePaymentStatus mutation (status,
txid, failureReason), and the processCompletedPayment mutation. -/
inductive CompleteEff
  | completeCall
  | fetchCall
  | setStatus (status : PaymentStatus) (txid : Option String) (reason : Option String)
  | processPayment
  deriving DecidableEq, Repr

/-- Result value of completePiPayment. -/
structure CompleteRes where
  success : Bool
  message : String
  txid : Option String
  deriving DecidableEq, Repr

/-- Full outcome of one completePiPayment run: the returned value, the
resulting local record state, and the effect trace. -/
structure CompleteOut where
  res : CompleteRes
  db : Option PaymentView
  effs : List CompleteEff
  deriving DecidableEq, Repr

/-- Embedding of completePiPayment (convex/paymentsActions.ts, lines
306-403). The handler short-circuits when the local record is already
completed; otherwise it mocks completion when no API key is configured;
otherwise it calls the provider complete endpoint (failure marks the
record failed and returns), fetches the payment details (failure is
caught and marks the record failed), marks the record completed with the
resolved transaction id, and runs order fulfillment — whose failure is
caught by the same handler, which then marks the record failed. -/
def completePiPayment (env : CompleteEnv) (db : Option PaymentView) (txidArg : Option String) :
    CompleteOut :=
  if db.map PaymentView.status = some .completed then
    { res := { success := true, message := "Payment was already completed.",
               txid := db.bind PaymentView.txid },
      db := db, effs := [] }
  else if !(jsTruthy env.piApiKey) then
    { res := { success := true, message := "Mock completion successful", txid := none },
      db := some { status := .completed, txid := some (txidArg.getD "mock-txid") },
      effs := [.setStatus .completed (some (txidArg.getD "mock-txid")) none, .processPayment] }
  else if !env.completeOk then
    { res := { success := false, message := env.completeErrMsg, txid := none },
      db := some { status := .failed, txid := db.bind PaymentView.txid },
      effs := [.completeCall,
               .setStatus .failed none (some ("Complete API: " ++ env.completeErrMsg))] }
  else if !env.fetchOk then
    { res := { success := false, message := env.fetchErrMsg, txid := none },
      db := some { status := .failed, txid := db.bind PaymentView.txid },
      effs := [.completeCall, .fetchCall, .setStatus .failed none (some env.fetchErrMsg)] }
  else
    let tx := txidArg <|> env.providerTxid
    if env.processOk then
      { res := { success := true, message := "Payment completed successfully", txid := tx },
        db := some { status := .completed, txid := tx },
        effs := [.completeCall, .fetchCall, .setStatus .completed tx none, .processPayment] }
    else
      { res := { success := false, message := env.processErrMsg, txid := none },
        db := some { status := .failed, txid := tx },
        effs := [.completeCall, .fetchCall, .setStatus .completed tx none, .processPayment,
                 .setStatus .failed none (some env.processErrMsg)] }

/-- Number of provider complete calls in an effect trace. -/
def countCompleteCalls (effs : List CompleteEff) : Nat :=
  effs.countP fun e => match e with
    | .completeCall => true
    | _ => false

/-- Status of a PayoutRecord (in_progress, completed, failed, pending). -/
inductive PayoutStatus
  | in_progress
  | completed
  | failed
  | pending
  deriving DecidableEq, Repr

/-- A row of the payouts table. Store and order identifiers are modelled
as naturals; the payout id is the row's position in the table. -/
structure PayoutRecord where
  storeId : Nat
  orderId : Nat
  amount : ℚ
  status : PayoutStatus
  txid : Option String
  failureReason : Option String
  deriving DecidableEq, Repr

/-- First record in the table matching the (storeId, orderId) key with the
given status. -/
def findPayout (table : List PayoutRecord) (storeId orderId : Nat) (st : PayoutStatus) :
    Option PayoutRecord :=
  table.find? fun r =>
    decide (r.storeId = storeId) && decide (r.orderId = orderId) && decide (r.status = st)

/-- Result of the orchestrator start-attempt check. -/
inductive StartResult
  | already_completed (txid : Option String)
  | in_progress
  | new (payoutId : Nat)
  deriving DecidableEq, Repr

/-- Modelled from the spec: the Idempotency/Payout Orchestrator operation
startAttempt, invoked by the actions as internal.paymentsQueries.startPayout,
whose implementation (convex/paymentsQueries.ts) is not among the provided
sources. Per the spec, it looks up the existing PayoutRecord for the
(recipient, orderId) key: one with status completed yields already_completed
with the stored transaction id; one with status in_progress yields
in_progress; otherwise a new record with status in_progress is created and
its id returned. -/
def startPayout (table : List PayoutRecord) (storeId orderId : Nat) (amount : ℚ) :
    StartResult × List PayoutRecord :=
  match findPayout table storeId orderId .completed with
  | some r => (.already_completed r.txid, table)
  | none =>
    match findPayout table storeId orderId .in_progress with
    | some _ => (.in_progress, table)
    | none =>
      (.new table.length,
       table ++ [{ storeId := storeId, orderId := orderId, amount := amount,
                   status := .in_progress, txid := none, failureReason := none }])

/-- Modelled from the spec: the Orchestrator operation finalizeAttempt,
invoked by the actions as internal.paymentsQueries.finalizePayout, whose
implementation is not among the provided sources. Per the spec, it patches
the PayoutRecord to the given terminal (or pending-retry) status; fields
not provided are left unchanged. -/
def finalizePayout (table : List PayoutRecord) (payoutId : Nat) (status : PayoutStatus)
    (txid : Option String) (failureReason : Option String) : List PayoutRecord :=
  match table[payoutId]? with
  | some r =>
      table.set payoutId
        { r with status := status, txid := txid <|> r.txid,
                 failureReason := failureReason <|> r.failureReason }
  | none => table

/-- The slice of a store document the payments actions read: delivery-zone
configuration and the cached wallet address of the owner. -/
structure Store where
  country : String
  deliveryRegions : Option (List String)
  isDeliveryRegionsAllowList : Option Bool
  piWalletAddress : Option String
  deriving DecidableEq, Repr

/-- The slice of a user profile the payments actions read. -/
structure Profile where
  piUid : String
  walletAddress : Option String
  country : Option String
  city : Option String
  deriving DecidableEq, Repr

/-- Outcome of the Stellar chain submission (account load, build, sign,
submit collapsed into one oracle): the transaction hash or the thrown
error message. -/
inductive ChainResult
  | ok (txid : String)
  | err (msg : String)
  deriving DecidableEq, Repr

/-- Oracle environment for payoutToStore: the store lookup, the owner
profile lookup (outer none models the lookup throwing, which the code
catches and ignores), the configured env vars, and the chain outcome. -/
structure PayoutEnv where
  store : Option Store
  ownerProfile : Option (Option Profile)
  piApiKey : Option String
  walletPrivateSeed : Option String
  chain : ChainResult
  deriving DecidableEq, Repr

/-- Oracle environment for refundToCustomer: the customer profile lookup,
the configured env vars, and the chain outcome. -/
structure RefundEnv where
  profile : Option Profile
  piApiKey : Option String
  walletPrivateSeed : Option String
  chain : ChainResult
  deriving DecidableEq, Repr

/-- Observable effects of the payout and refund actions beyond the payouts
table itself: the chain submission and any scheduled retry of the flow. -/
inductive PayoutEff
  | chainSubmit (destination : String) (amount : ℚ)
  | scheduleRetry (delayMs : Nat) (storeId orderId : Nat) (amount : ℚ)
  deriving DecidableEq, Repr

/-- Result value of payoutToStore and refundToCustomer (refund results
never carry willRetry). -/
structure PayoutResult where
  success : Bool
  reason : Option String
  txid : Option String
  willRetry : Option Bool
  deriving DecidableEq, Repr

/-- Full outcome of one payout or refund run. -/
structure PayoutOut where
  res : PayoutResult
  table : List PayoutRecord
  effs : List PayoutEff
  deriving DecidableEq, Repr

/-- Whitespace predicate for the trim model (ASCII whitespace; the
JavaScript trim also strips further Unicode space characters, which no
value of interest here contains). -/
def isWsChar (c : Char) : Bool := c == ' ' || c == '\t' || c == '\n' || c == '\r'

/-- Kernel-computable model of the JavaScript string trim. -/
def jsTrim (s : String) : String :=
  ⟨((s.data.dropWhile isWsChar).reverse.dropWhile isWsChar).reverse⟩

/-- The private seed check of the actions: the seed must be present and
start with the letter S. -/
def seedOk : Option String → Bool
  | none => false
  | some s => s.data.head? == some 'S'

/-- Rounding to six decimal places as the actions do before submission. -/
def roundToMicro (a : ℚ) : ℚ := (round (a * 1000000) : ℤ) / 1000000

/-- Wallet resolution of payoutToStore (lines 488-501): start from the
store's cached address and overwrite it with the owner profile's address
when that lookup succeeds, returns a profile and the address is truthy;
a throwing lookup or an absent profile keeps the store data. -/
def resolveWallet (store : Store) (ownerProfile : Option (Option Profile)) : Option String :=
  match ownerProfile with
  | some (some p) =>
      if jsTruthy p.walletAddress then p.walletAddress else store.piWalletAddress
  | _ => store.piWalletAddress

/-- The wallet validity check of payoutToStore (line 504): absent or
whitespace-only addresses are invalid. -/
def walletInvalid : Option String → Bool
  | none => true
  | some w => jsTrim w == ""

/-- The no-wallet failure message of payoutToStore (the code interpolates
the store id). -/
def payoutNoWalletMsg (storeId : Nat) : String :=
  "No valid Wallet Address found for store " ++ toString storeId ++
    ". Ensure the owner has linked their Pi Wallet."

/-- The missing-env-vars message of payoutToStore. -/
def payoutEnvVarsMsg : String :=
  "Missing or invalid Pi env vars (PI_API_KEY or PI_WALLET_PRIVATE_SEED). Check Convex dashboard."

/-- Embedding of payoutToStore (convex/paymentsActions.ts, lines 449-624):
start-attempt short-circuits, store lookup, wallet resolution from the
freshest profile, the pending-plus-scheduled-retry branch on a missing
wallet, the env-var gate, six-decimal rounding, and the chain submission
finalizing the record as completed or failed. -/
def payoutToStore (env : PayoutEnv) (table : List PayoutRecord) (storeId orderId : Nat)
    (amount : ℚ) : PayoutOut :=
  match startPayout table storeId orderId amount with
  | (.already_completed tx, t) =>
      { res := { success := true, reason := none, txid := tx, willRetry := none },
        table := t, effs := [] }
  | (.in_progress, t) =>
      { res := { success := false, reason := some "Payout is currently in progress. Please wait.",
                 txid := none, willRetry := none },
        table := t, effs := [] }
  | (.new payoutId, t) =>
    match env.store with
    | none =>
        { res := { success := false, reason := some "Store or owner not found.",
                   txid := none, willRetry := none },
          table := finalizePayout t payoutId .failed none (some "Store or owner not found."),
          effs := [] }
    | some store =>
      let walletAddress := resolveWallet store env.ownerProfile
      if walletInvalid walletAddress then
        { res := { success := false, reason := some (payoutNoWalletMsg storeId),
                   txid := none, willRetry := some true },
          table := finalizePayout t payoutId .pending none
                     (some "Awaiting Wallet Linkage. Retrying soon."),
          effs := [.scheduleRetry 300000 storeId orderId amount] }
      else
        if !(jsTruthy env.piApiKey && seedOk env.walletPrivateSeed) then
          { res := { success := false, reason := some payoutEnvVarsMsg,
                     txid := none, willRetry := none },
            table := finalizePayout t payoutId .failed none (some payoutEnvVarsMsg),
            effs := [] }
        else
          let recipientAddress := jsTrim (walletAddress.getD "")
          match env.chain with
          | .ok txid =>
              { res := { success := true, reason := none, txid := some txid, willRetry := none },
                table := finalizePayout t payoutId .completed (some txid) none,
                effs := [.chainSubmit recipientAddress (roundToMicro amount)] }
          | .err msg =>
              { res := { success := false, reason := some msg, txid := none, willRetry := none },
                table := finalizePayout t payoutId .failed none (some msg),
                effs := [.chainSubmit recipientAddress (roundToMicro amount)] }

/-- The no-wallet failure message of refundToCustomer (the code
interpolates the user id). -/
def refundNoWalletMsg (userId : Nat) : String :=
  "Customer (ID: " ++ toString userId ++
    ") has no Wallet Address linked. Cannot refund automatically."

/-- The customer wallet requirement of refundToCustomer (line 218): the
profile must exist and carry a truthy wallet address. -/
def refundWallet (profile : Option Profile) : Option String :=
  match profile with
  | some p => if jsTruthy p.walletAddress then p.walletAddress else none
  | none => none

/-- Embedding of refundToCustomer (convex/paymentsActions.ts, lines
188-301). It reuses the payouts table and calls startPayout with the same
(storeId, orderId) key as payoutToStore. A customer with no truthy wallet
address finalizes the record as failed and returns a plain failure: there
is no pending status, no scheduled retry and no willRetry field in this
flow. -/
def refundToCustomer (env : RefundEnv) (table : List PayoutRecord) (userId storeId orderId : Nat)
    (amount : ℚ) : PayoutOut :=
  match startPayout table storeId orderId amount with
  | (.already_completed tx, t) =>
      { res := { success := true, reason := none, txid := tx, willRetry := none },
        table := t, effs := [] }
  | (.in_progress, t) =>
      { res := { success := false, reason := some "Refund is currently in progress. Please wait.",
                 txid := none, willRetry := none },
        table := t, effs := [] }
  | (.new payoutId, t) =>
    match refundWallet env.profile with
    | none =>
        { res := { success := false, reason := some (refundNoWalletMsg userId),
                   txid := none, willRetry := none },
          table := finalizePayout t payoutId .failed none (some (refundNoWalletMsg userId)),
          effs := [] }
    | some recipientAddress =>
      if !(jsTruthy env.piApiKey && seedOk env.walletPrivateSeed) then
        { res := { success := false, reason := some "Missing or invalid Pi env vars.",
                   txid := none, willRetry := none },
          table := finalizePayout t payoutId .failed none (some "Missing or invalid Pi env vars."),
          effs := [] }
      else
        match env.chain with
        | .ok txid =>
            { res := { success := true, reason := none, txid := some txid, willRetry := none },
              table := finalizePayout t payoutId .completed (some txid) none,
              effs := [.chainSubmit recipientAddress (roundToMicro amount)] }
        | .err msg =>
            { res := { success := false, reason := some msg, txid := none, willRetry := none },
              table := finalizePayout t payoutId .failed none (some msg),
              effs := [.chainSubmit recipientAddress (roundToMicro amount)] }

/-- The metadata fields approvePiPayment reads from its opaque metadata
blob: the referenced store and the order-specific delivery location. -/
structure Metadata where
  storeId : Option Nat
  deliveryCountry : Option String
  deliveryCity : Option String
  deriving DecidableEq, Repr

/-- Oracle environment for approvePiPayment: whether the session user
resolves, the three access-token verification attempts against the
identity endpoint (the uid on success), the profile lookup, the store
lookup consulted when the metadata references a store, the configured API
key, and the approval endpoint response. -/
structure ApproveEnv where
  userFound : Bool
  me1 : Option String
  me2 : Option String
  me3 : Option String
  profile : Option Profile
  store : Option Store
  piApiKey : Option String
  approveOk : Bool
  approveBody : String
  deriving DecidableEq, Repr

/-- Observable effects of approvePiPayment: the createPaymentRecord
mutation (with the recorded amount, memo and status) and the provider
approval call. -/
inductive ApproveEff
  | createPaymentRecord (amount : ℚ) (memo : String) (status : String)
  | approveCall
  deriving DecidableEq, Repr

/-- Result of approvePiPayment: a success (mock when no API key is
configured) or a raised error message. -/
inductive ApproveResult
  | ok (mock : Bool)
  | err (msg : String)
  deriving DecidableEq, Repr

/-- The delivery-zone validation of approvePiPayment (lines 118-148),
evaluated when the metadata references a store that resolves. The
destination country and city come from the metadata, falling back to the
profile; both must be present; the country must equal the store country;
and when the store has a nonempty deliveryRegions list, the city must be
in it when the list is an allow list (the default when the flag is unset)
and out of it when it is a deny list. Returns the thrown message on
violation. -/
def checkDeliveryZone (store : Store) (md : Metadata) (profile : Profile) : Option String :=
  let userCountry := (jsStr md.deliveryCountry).orElse fun _ => jsStr profile.country
  let userCity := (jsStr md.deliveryCity).orElse fun _ => jsStr profile.city
  match userCountry, userCity with
  | some country, some city =>
      if store.country = country then
        match store.deliveryRegions with
        | some regions =>
            if regions.length > 0 then
              let isAllowed := store.isDeliveryRegionsAllowList.getD true
              let inList := regions.contains city
              if isAllowed then
                if !inList then some ("This store does not deliver to " ++ city ++ ".") else none
              else
                if inList then some ("This store does not deliver to " ++ city ++ ".") else none
            else none
        | none => none
      else some ("This store only delivers within " ++ store.country ++ ".")
  | _, _ => some "Please update your account with your Country and City to proceed with the order."

/-- Embedding of approvePiPayment (convex/paymentsActions.ts, lines
67-183): user resolution, up to three access-token verification attempts,
profile lookup and uid cross-check, the delivery-zone gate when the
metadata references a store that resolves, persistence of the approved
PaymentRecord (with amount defaulted to 0 when absent), the mock branch
when no API key is configured, and the provider approval call whose
non-success response is raised with the provider's error body. The
handler contains no check on the amount. -/
def approvePiPayment (env : ApproveEnv) (amount : Option ℚ) (memo : Option String)
    (md : Metadata) : ApproveResult × List ApproveEff :=
  if !env.userFound then
    (.err "User must be authenticated to approve a payment.", [])
  else
    match env.me1 <|> env.me2 <|> env.me3 with
    | none => (.err "Pi payment approval failed: Could not verify access token with Pi servers.", [])
    | some uid =>
      match env.profile with
      | none => (.err "User profile not found for payment approval.", [])
      | some profile =>
        if uid ≠ profile.piUid then
          (.err "Pi user ID mismatch during payment approval.", [])
        else
          let zoneErr : Option String :=
            match md.storeId with
            | some _ =>
                match env.store with
                | some store => checkDeliveryZone store md profile
                | none => none
            | none => none
          match zoneErr with
          | some e => (.err e, [])
          | none =>
            let record := ApproveEff.createPaymentRecord (amount.getD 0) (memo.getD "") "approved"
            if !(jsTruthy env.piApiKey) then
              (.ok true, [record])
            else
              if env.approveOk then (.ok false, [record, .approveCall])
              else (.err ("Failed to approve Pi payment: " ++ env.approveBody),
                    [record, .approveCall])

/-- The slice of an order document resolveReport reads. -/
structure ROrder where
  userId : Nat
  storeId : Nat
  totalAmount : ℚ
  deriving DecidableEq, Repr

/-- The slice of a report document resolveReport reads. -/
structure Report where
  status : String
  deriving DecidableEq, Repr

/-- Observable effects of resolveReport: the report and order patches, the
scheduled refund or payout action, and the conversation archival. -/
inductive ResolveEff
  | patchReport (status resolution : String)
  | patchOrder (status : String) (paymentStatus : Option String)
  | scheduleRefund (userId storeId : Nat) (amount : ℚ) (orderId : Nat)
  | schedulePayout (storeId : Nat) (amount : ℚ) (orderId : Nat)
  | archiveConversation
  deriving DecidableEq, Repr

/-- Embedding of resolveReport (convex/reports.ts lines 44-106 and its
variant in the unnamed convex module, lines 49-123; the two versions agree
on every amount computation). The commissionRate argument is the parsed
APP_COMMISSION_RATE environment value, absent when the variable is unset,
in which case the code parses the literal default 0.05. Authorization
(report found, store found, owner match) is collapsed into the authorized
flag; a refund resolution schedules refundToCustomer with the full order
total; a dismiss resolution schedules payoutToStore with the total times
one minus the commission rate. -/
def resolveReport (commissionRate : Option ℚ) (authorized : Bool) (report : Option Report)
    (order : Option ROrder) (orderId : Nat) (resolution : String) (note : Option String)
    (conversationExists : Bool) : Except String (List ResolveEff) :=
  match report with
  | none => .error "Report not found"
  | some report =>
    if !authorized then .error "Unauthorized"
    else if report.status ≠ "open" then .error "Report is already resolved"
    else
      match order with
      | none => .error "Order not found"
      | some order =>
        if resolution = "refund" then
          .ok ([.patchReport "resolved" (note.getD "Refunded by store"),
                .patchOrder "cancelled" (some "refunded"),
                .scheduleRefund order.userId order.storeId order.totalAmount orderId] ++
               (if conversationExists then [.archiveConversation] else []))
        else if resolution = "dismiss" then
          let appCommissionRate := commissionRate.getD (5 / 100)
          let payoutAmount := order.totalAmount * (1 - appCommissionRate)
          .ok ([.patchReport "rejected" (note.getD "Report dismissed by store"),
                .schedulePayout order.storeId payoutAmount orderId,
                .patchOrder "delivered" (some "released")] ++
               (if conversationExists then [.archiveConversation] else []))
        else .ok []

/-- Embedding of verifyPiWebhook (convex/paymentsActions.ts, lines 22-62).
An absent or empty signature header is rejected outright; with a
signature present but no configured secret the payload is accepted for
development; otherwise the result is the constant-time comparison of the
HMAC digest with the provided signature, abstracted here as the
hmacMatches oracle (whose false case also covers the caught comparison
errors). -/
def verifyPiWebhook (hmacMatches : Bool) (webhookSecret signature : Option String)
    (rawBody : String) : Bool × String :=
  if !(jsTruthy signature) then
    (false, rawBody)
  else if !(jsTruthy webhookSecret) then
    (true, rawBody)
  else
    (hmacMatches, rawBody)

/-- A single completePiPayment run makes at most one provider complete
call. -/
theorem countCompleteCalls_le_one (env : CompleteEnv) (db : Option PaymentView)
    (txidArg : Option String) :
    countCompleteCalls (completePiPayment env db txidArg).effs ≤ 1 := by
  unfold completePiPayment
  repeat' split
  all_goals simp [countCompleteCalls]

/-- Claim C1 counterexample: with the provider complete call and the
detail fetch succeeding but order fulfillment failing, completePiPayment
first marks the record completed and then, in its catch handler, marks it
failed — the final status is failed, not completed. -/
theorem completed_regresses_on_fulfillment_failure_cex :
    (CompleteEff.setStatus .completed (some "tx1") none ∈
      (completePiPayment
        { piApiKey := some "k", completeOk := true, completeErrMsg := "",
          fetchOk := true, fetchErrMsg := "", providerTxid := some "tx1",
          processOk := false, processErrMsg := "order fulfillment failed" }
        (some { status := .approved, txid := none }) none).effs) ∧
    (completePiPayment
        { piApiKey := some "k", completeOk := true, completeErrMsg := "",
          fetchOk := true, fetchErrMsg := "", providerTxid := some "tx1",
          processOk := false, processErrMsg := "order fulfillment failed" }
        (some { status := .approved, txid := none }) none).db
      = some { status := .failed, txid := some "tx1" } := by
  exact ⟨by decide, rfl⟩

/-- Claim C1 amended: when the local record is not yet completed, an API
key is configured, the provider complete call and the detail fetch succeed
but order fulfillment fails, completePiPayment marks the record completed
during the run and then transitions it to failed with the failure reason:
completed is not terminal in this handler, the catch block regresses it to
failed. -/
theorem fulfillment_failure_regresses_completed
    (env : CompleteEnv) (db : Option PaymentView) (txidArg : Option String)
    (hdb : db.map PaymentView.status ≠ some .completed)
    (hkey : jsTruthy env.piApiKey = true)
    (hc : env.completeOk = true) (hf : env.fetchOk = true) (hp : env.processOk = false) :
    (completePiPayment env db txidArg).effs
      = [.completeCall, .fetchCall,
         .setStatus .completed (txidArg <|> env.providerTxid) none, .processPayment,
         .setStatus .failed none (some env.processErrMsg)] ∧
    (completePiPayment env db txidArg).db
      = some { status := .failed, txid := txidArg <|> env.providerTxid } := by
  unfold completePiPayment
  simp [hdb, hkey, hc, hf, hp]

theorem fulfillment_failure_regresses_completed_witness :
    ((some { status := .approved, txid := none } : Option PaymentView).map PaymentView.status
        ≠ some .completed) ∧
    (completePiPayment
        { piApiKey := some "k", completeOk := true, completeErrMsg := "",
          fetchOk := true, fetchErrMsg := "", providerTxid := none,
          processOk := false, processErrMsg := "boom" }
        (some { status := .approved, txid := none }) (some "t")).db
      = some { status := .failed, txid := some "t" } :=
  ⟨by decide,
   (fulfillment_failure_regresses_completed
      { piApiKey := some "k", completeOk := true, completeErrMsg := "",
        fetchOk := true, fetchErrMsg := "", providerTxid := none,
        processOk := false, processErrMsg := "boom" }
      (some { status := .approved, txid := none }) (some "t")
      (by decide) (by decide) rfl rfl rfl).2⟩

/-- Claim C5 counterexample: a first completePiPayment call whose provider
complete call succeeds but whose detail fetch fails leaves the record
failed, so a second call for the same payment issues a second provider
complete call — two provider complete calls for one paymentId. -/
theorem two_provider_complete_calls_cex :
    countCompleteCalls
      ((completePiPayment
          { piApiKey := some "k", completeOk := true, completeErrMsg := "",
            fetchOk := false, fetchErrMsg := "fetch failed", providerTxid := none,
            processOk := true, processErrMsg := "" }
          (some { status := .approved, txid := none }) (some "t")).effs ++
       (completePiPayment
          { piApiKey := some "k", completeOk := true, completeErrMsg := "",
            fetchOk := true, fetchErrMsg := "", providerTxid := none,
            processOk := true, processErrMsg := "" }
          (completePiPayment
            { piApiKey := some "k", completeOk := true, completeErrMsg := "",
              fetchOk := false, fetchErrMsg := "fetch failed", providerTxid := none,
              processOk := true, processErrMsg := "" }
            (some { status := .approved, txid := none }) (some "t")).db
          (some "t")).effs) = 2 := by
  rfl

/-- Claim C5 amended: when the local record is already completed, a
further completePiPayment call returns success immediately with no
provider complete call and no effect at all; consequently, whenever the
first of two calls leaves the record completed, the two calls together
issue at most one provider complete call. A second provider complete call
occurs only when the first call left the record in a non-completed state
(for instance because its post-complete detail fetch failed). -/
theorem complete_idempotency_amended :
    (∀ env db txidArg, db.map PaymentView.status = some .completed →
        completePiPayment env db txidArg =
          { res := { success := true, message := "Payment was already completed.",
                     txid := db.bind PaymentView.txid },
            db := db, effs := [] }) ∧
    (∀ e₁ e₂ db t₁ t₂,
        ((completePiPayment e₁ db t₁).db).map PaymentView.status = some .completed →
        countCompleteCalls ((completePiPayment e₁ db t₁).effs ++
            (completePiPayment e₂ (completePiPayment e₁ db t₁).db t₂).effs) ≤ 1) := by
  have short : ∀ env db txidArg, db.map PaymentView.status = some .completed →
      completePiPayment env db txidArg =
        { res := { success := true, message := "Payment was already completed.",
                   txid := db.bind PaymentView.txid },
          db := db, effs := [] } := by
    intro env db txidArg h
    unfold completePiPayment
    rw [if_pos h]
  refine ⟨short, ?_⟩
  intro e₁ e₂ db t₁ t₂ h
  rw [short e₂ _ t₂ h]
  simpa [countCompleteCalls] using countCompleteCalls_le_one e₁ db t₁

theorem complete_idempotency_amended_witness :
    ((some { status := .completed, txid := some "t0" } : Option PaymentView).map
        PaymentView.status = some .completed) ∧
    (completePiPayment
        { piApiKey := some "k", completeOk := true, completeErrMsg := "",
          fetchOk := true, fetchErrMsg := "", providerTxid := none,
          processOk := true, processErrMsg := "" }
        (some { status := .completed, txid := some "t0" }) none =
      { res := { success := true, message := "Payment was already completed.",
                 txid := some "t0" },
        db := some { status := .completed, txid := some "t0" }, effs := [] }) :=
  ⟨rfl,
   complete_idempotency_amended.1
     { piApiKey := some "k", completeOk := true, completeErrMsg := "",
       fetchOk := true, fetchErrMsg := "", providerTxid := none,
       processOk := true, processErrMsg := "" }
     (some { status := .completed, txid := some "t0" }) none rfl⟩

/-- Finalizing the freshly appended record patches exactly that record. -/
theorem finalizePayout_concat (table : List PayoutRecord) (r : PayoutRecord)
    (st : PayoutStatus) (tx fr : Option String) :
    finalizePayout (table ++ [r]) table.length st tx fr =
      table ++ [{ r with status := st, txid := tx <|> r.txid,
                         failureReason := fr <|> r.failureReason }] := by
  unfold finalizePayout
  simp only [List.getElem?_concat_length]
  rw [List.set_append_right] <;> simp

/-- Claim C3: when an existing PayoutRecord for the (storeId, orderId) key
is already completed, both payoutToStore and refundToCustomer return
success with the stored transaction id immediately, leave the payouts
table unchanged, and produce no effects at all — no wallet lookup is
consumed, no chain submission happens, no retry is scheduled and no
record is mutated. -/
theorem already_completed_short_circuit (penv : PayoutEnv) (renv : RefundEnv)
    (table : List PayoutRecord) (s o u : Nat) (a b : ℚ) (r : PayoutRecord)
    (h : findPayout table s o .completed = some r) :
    payoutToStore penv table s o a =
      { res := { success := true, reason := none, txid := r.txid, willRetry := none },
        table := table, effs := [] } ∧
    refundToCustomer renv table u s o b =
      { res := { success := true, reason := none, txid := r.txid, willRetry := none },
        table := table, effs := [] } := by
  unfold payoutToStore refundToCustomer startPayout
  rw [h]
  exact ⟨rfl, rfl⟩

theorem already_completed_short_circuit_witness :
    (findPayout
        [{ storeId := 1, orderId := 2, amount := 95, status := .completed,
           txid := some "t0", failureReason := none }] 1 2 .completed
      = some { storeId := 1, orderId := 2, amount := 95, status := .completed,
               txid := some "t0", failureReason := none }) ∧
    (payoutToStore
        { store := none, ownerProfile := none, piApiKey := none,
          walletPrivateSeed := none, chain := .err "unused" }
        [{ storeId := 1, orderId := 2, amount := 95, status := .completed,
           txid := some "t0", failureReason := none }] 1 2 42 =
      { res := { success := true, reason := none, txid := some "t0", willRetry := none },
        table := [{ storeId := 1, orderId := 2, amount := 95, status := .completed,
                    txid := some "t0", failureReason := none }],
        effs := [] }) :=
  ⟨by rfl,
   (already_completed_short_circuit
      { store := none, ownerProfile := none, piApiKey := none,
        walletPrivateSeed := none, chain := .err "unused" }
      { profile := none, piApiKey := none, walletPrivateSeed := none, chain := .err "unused" }
      [{ storeId := 1, orderId := 2, amount := 95, status := .completed,
         txid := some "t0", failureReason := none }] 1 2 7 42 42
      { storeId := 1, orderId := 2, amount := 95, status := .completed,
        txid := some "t0", failureReason := none } (by rfl)).1⟩

/-- Claim C2 counterexample: after a store payout of 95 for order 2 of
store 1 completes with transaction t0, a refund attempt for the same
order short-circuits as already completed with the payout transaction id
and performs no transfer — the completed store payout suppresses the
refund direction. -/
theorem refund_shares_payout_record_cex :
    (payoutToStore
        { store := some { country := "EG", deliveryRegions := none,
                          isDeliveryRegionsAllowList := none, piWalletAddress := some "GWALLET" },
          ownerProfile := some none, piApiKey := some "k",
          walletPrivateSeed := some "SSEED", chain := .ok "t0" }
        [] 1 2 95).res.success = true ∧
    refundToCustomer
        { profile := some { piUid := "u", walletAddress := some "CW",
                            country := none, city := none },
          piApiKey := some "k", walletPrivateSeed := some "S1", chain := .ok "t1" }
        (payoutToStore
          { store := some { country := "EG", deliveryRegions := none,
                            isDeliveryRegionsAllowList := none, piWalletAddress := some "GWALLET" },
            ownerProfile := some none, piApiKey := some "k",
            walletPrivateSeed := some "SSEED", chain := .ok "t0" }
          [] 1 2 95).table 7 1 2 100 =
      { res := { success := true, reason := none, txid := some "t0", willRetry := none },
        table := [{ storeId := 1, orderId := 2, amount := 95, status := .completed,
                    txid := some "t0", failureReason := none }],
        effs := [] } := by
  exact ⟨rfl, rfl⟩

/-- Claim C2 amended: payout records are keyed by (storeId, orderId) only
— refundToCustomer reuses the payouts table and invokes the start-attempt
check with exactly the same key as payoutToStore, with no direction
component. For an order with no prior attempt whose store payout runs to
completion, a subsequent refund attempt for the same order short-circuits
as already completed with the store payout's transaction id and submits
no transfer. -/
theorem payout_and_refund_share_key (penv : PayoutEnv) (renv : RefundEnv)
    (s o u : Nat) (a b : ℚ) (store : Store) (tx : String)
    (hs : penv.store = some store)
    (hw : walletInvalid (resolveWallet store penv.ownerProfile) = false)
    (hk : jsTruthy penv.piApiKey = true)
    (hseed : seedOk penv.walletPrivateSeed = true)
    (hch : penv.chain = .ok tx) :
    (payoutToStore penv [] s o a).res.success = true ∧
    refundToCustomer renv (payoutToStore penv [] s o a).table u s o b =
      { res := { success := true, reason := none, txid := some tx, willRetry := none },
        table := (payoutToStore penv [] s o a).table, effs := [] } := by
  have hpay : payoutToStore penv [] s o a =
      { res := { success := true, reason := none, txid := some tx, willRetry := none },
        table := [{ storeId := s, orderId := o, amount := a, status := .completed,
                    txid := some tx, failureReason := none }],
        effs := [.chainSubmit (jsTrim ((resolveWallet store penv.ownerProfile).getD ""))
                   (roundToMicro a)] } := by
    unfold payoutToStore startPayout
    simp only [findPayout, List.find?_nil]
    rw [hs]
    simp only [hw, Bool.false_eq_true, if_false, hk, hseed, Bool.and_self, Bool.not_true,
      Bool.false_eq_true, if_false, hch]
    have hfin : finalizePayout
        ([] ++ [{ storeId := s, orderId := o, amount := a, status := .in_progress,
                  txid := none, failureReason := none }]) 0 .completed (some tx) none
        = [{ storeId := s, orderId := o, amount := a, status := .completed,
             txid := some tx, failureReason := none }] := rfl
    simpa using hfin
  refine ⟨by rw [hpay], ?_⟩
  rw [hpay]
  have hfind : findPayout
      [{ storeId := s, orderId := o, amount := a, status := .completed,
         txid := some tx, failureReason := none }] s o .completed
      = some { storeId := s, orderId := o, amount := a, status := .completed,
               txid := some tx, failureReason := none } := by
    simp [findPayout]
  unfold refundToCustomer startPayout
  rw [hfind]

theorem payout_and_refund_share_key_witness :
    ((PayoutEnv.mk (some (Store.mk "EG" none none (some "GWALLET")))
        (some none) (some "k") (some "SSEED") (.ok "t0")).store
      = some (Store.mk "EG" none none (some "GWALLET"))) ∧
    (refundToCustomer (RefundEnv.mk none none none (.err "x"))
        (payoutToStore
          (PayoutEnv.mk (some (Store.mk "EG" none none (some "GWALLET")))
            (some none) (some "k") (some "SSEED") (.ok "t0"))
          [] 1 2 95).table 7 1 2 100 =
      { res := { success := true, reason := none, txid := some "t0", willRetry := none },
        table := (payoutToStore
            (PayoutEnv.mk (some (Store.mk "EG" none none (some "GWALLET")))
              (some none) (some "k") (some "SSEED") (.ok "t0"))
            [] 1 2 95).table,
        effs := [] }) :=
  ⟨rfl,
   (payout_and_refund_share_key
      (PayoutEnv.mk (some (Store.mk "EG" none none (some "GWALLET")))
        (some none) (some "k") (some "SSEED") (.ok "t0"))
      (RefundEnv.mk none none none (.err "x"))
      1 2 7 95 100 (Store.mk "EG" none none (some "GWALLET"))
      "t0" rfl (by rfl) rfl rfl rfl).2⟩

/-- Claim C4 counterexample: a refund invocation for a customer with no
linked wallet address marks the PayoutRecord failed (not pending),
schedules no retry at all, and returns success false with no willRetry
field — the wallet-linkage retry exists only in the store-payout flow. -/
theorem refund_missing_wallet_no_retry_cex :
    refundToCustomer
        { profile := some { piUid := "u", walletAddress := none, country := none, city := none },
          piApiKey := some "k", walletPrivateSeed := some "S1", chain := .ok "t9" }
        [] 7 1 2 50 =
      { res := { success := false, reason := some (refundNoWalletMsg 7),
                 txid := none, willRetry := none },
        table := [{ storeId := 1, orderId := 2, amount := 50, status := .failed,
                    txid := none, failureReason := some (refundNoWalletMsg 7) }],
        effs := [] } := by
  rfl

/-- Claim C4 amended: only the store-payout flow implements the
wallet-linkage retry. When payoutToStore resolves no valid wallet address
for an order with no prior attempt, it marks the PayoutRecord pending,
schedules exactly one retry of the whole flow after 300000 milliseconds
(5 minutes), and returns success false with willRetry true. When
refundToCustomer finds no truthy wallet address on the customer profile,
it marks the PayoutRecord failed and returns success false with no
willRetry and no scheduled retry. -/
theorem wallet_linkage_retry_amended :
    (∀ penv table s o a store,
        penv.store = some store →
        walletInvalid (resolveWallet store penv.ownerProfile) = true →
        findPayout table s o .completed = none →
        findPayout table s o .in_progress = none →
        payoutToStore penv table s o a =
          { res := { success := false, reason := some (payoutNoWalletMsg s),
                     txid := none, willRetry := some true },
            table := table ++ [{ storeId := s, orderId := o, amount := a, status := .pending,
                                 txid := none,
                                 failureReason := some "Awaiting Wallet Linkage. Retrying soon." }],
            effs := [.scheduleRetry 300000 s o a] }) ∧
    (∀ renv table u s o a,
        refundWallet renv.profile = none →
        findPayout table s o .completed = none →
        findPayout table s o .in_progress = none →
        refundToCustomer renv table u s o a =
          { res := { success := false, reason := some (refundNoWalletMsg u),
                     txid := none, willRetry := none },
            table := table ++ [{ storeId := s, orderId := o, amount := a, status := .failed,
                                 txid := none, failureReason := some (refundNoWalletMsg u) }],
            effs := [] }) := by
  constructor
  · intro penv table s o a store hs hw hc hp
    unfold payoutToStore startPayout
    rw [hc, hp, hs]
    simp only [hw, if_true]
    rw [finalizePayout_concat]
    rfl
  · intro renv table u s o a hwallet hc hp
    unfold refundToCustomer startPayout
    simp only [hc, hp, hwallet]
    rw [finalizePayout_concat]
    rfl

theorem wallet_linkage_retry_amended_witness :
    ((PayoutEnv.mk (some (Store.mk "EG" none none none))
        (some none) (some "k") (some "SSEED") (.err "unused")).store
      = some (Store.mk "EG" none none none)) ∧
    (payoutToStore
        (PayoutEnv.mk (some (Store.mk "EG" none none none))
          (some none) (some "k") (some "SSEED") (.err "unused"))
        [] 1 2 50 =
      { res := { success := false, reason := some (payoutNoWalletMsg 1),
                 txid := none, willRetry := some true },
        table := [{ storeId := 1, orderId := 2, amount := 50, status := .pending,
                    txid := none,
                    failureReason := some "Awaiting Wallet Linkage. Retrying soon." }],
        effs := [.scheduleRetry 300000 1 2 50] }) :=
  ⟨rfl,
   by
    have h := wallet_linkage_retry_amended.1
      (PayoutEnv.mk (some (Store.mk "EG" none none none))
        (some none) (some "k") (some "SSEED") (.err "unused"))
      [] 1 2 50 (Store.mk "EG" none none none) rfl (by rfl) rfl rfl
    simpa using h⟩

/-- Claim C6 counterexample: a non-success approval response whose body
reports that the payment is already approved is raised as a hard failure
with the provider's error payload, not treated as success — the handler
contains no special case for already-approved responses. -/
theorem already_approved_not_special_cased_cex :
    (approvePiPayment
        { userFound := true, me1 := some "u1", me2 := none, me3 := none,
          profile := some { piUid := "u1", walletAddress := none, country := none, city := none },
          store := none, piApiKey := some "k", approveOk := false,
          approveBody := "Payment already approved" }
        (some 10) none { storeId := none, deliveryCountry := none, deliveryCity := none }).1
      = .err "Failed to approve Pi payment: Payment already approved" := by
  rfl

/-- Claim C6 amended: approvePiPayment branches only on the HTTP success
of the approval response: every success response returns success and
every non-success response — one reporting already approved included —
is raised as a hard failure carrying the provider's error payload. -/
theorem approve_response_handling (env : ApproveEnv) (amount : Option ℚ) (memo : Option String)
    (md : Metadata) (profile : Profile) (uid : String)
    (hu : env.userFound = true) (hme : env.me1 = some uid)
    (hp : env.profile = some profile) (huid : uid = profile.piUid)
    (hmd : md.storeId = none) (hkey : jsTruthy env.piApiKey = true) :
    (env.approveOk = true →
      approvePiPayment env amount memo md =
        (.ok false, [.createPaymentRecord (amount.getD 0) (memo.getD "") "approved",
                     .approveCall])) ∧
    (env.approveOk = false →
      approvePiPayment env amount memo md =
        (.err ("Failed to approve Pi payment: " ++ env.approveBody),
         [.createPaymentRecord (amount.getD 0) (memo.getD "") "approved", .approveCall])) := by
  unfold approvePiPayment
  simp only [hu, hme, hp, huid, hmd, hkey]
  constructor
  · intro hok
    simp [hok]
  · intro hok
    simp [hok]

theorem approve_response_handling_witness :
    ((ApproveEnv.mk true (some "u1") none none
        (some (Profile.mk "u1" none none none)) none (some "k") false "already approved"
        : ApproveEnv).userFound = true) ∧
    (approvePiPayment
        (ApproveEnv.mk true (some "u1") none none
          (some (Profile.mk "u1" none none none)) none (some "k") false "already approved")
        none none (Metadata.mk none none none) =
      (.err "Failed to approve Pi payment: already approved",
       [.createPaymentRecord 0 "" "approved", .approveCall])) :=
  ⟨rfl,
   (approve_response_handling
      (ApproveEnv.mk true (some "u1") none none
        (some (Profile.mk "u1" none none none)) none (some "k") false "already approved")
      none none (Metadata.mk none none none)
      (Profile.mk "u1" none none none) "u1"
      rfl rfl rfl rfl rfl rfl).2 rfl⟩

/-- Claim C7 counterexample: an approval with a negative claimed amount
passes every gate, persists a PaymentRecord carrying that amount, and
calls the provider approval endpoint — there is no amount validation in
the handler. -/
theorem no_amount_gate_cex :
    approvePiPayment
        { userFound := true, me1 := some "u1", me2 := none, me3 := none,
          profile := some { piUid := "u1", walletAddress := none, country := none, city := none },
          store := none, piApiKey := some "k", approveOk := true, approveBody := "" }
        (some (-5)) none { storeId := none, deliveryCountry := none, deliveryCity := none }
      = (.ok false, [.createPaymentRecord (-5) "" "approved", .approveCall]) := by
  rfl

/-- Claim C7 amended: approvePiPayment contains no gate on the claimed
amount. A call whose amount is nonpositive proceeds exactly like any
other: once the user, token, identity and zone gates pass, the handler
persists a PaymentRecord carrying that amount (or 0 when absent) with
status approved and then calls the provider approval endpoint. -/
theorem no_amount_gate (env : ApproveEnv) (memo : Option String) (md : Metadata)
    (profile : Profile) (uid : String) (a : ℚ)
    (hu : env.userFound = true) (hme : env.me1 = some uid)
    (hp : env.profile = some profile) (huid : uid = profile.piUid)
    (hmd : md.storeId = none) (hkey : jsTruthy env.piApiKey = true)
    (hok : env.approveOk = true) (_ha : a ≤ 0) :
    approvePiPayment env (some a) memo md =
      (.ok false, [.createPaymentRecord a (memo.getD "") "approved", .approveCall]) := by
  unfold approvePiPayment
  simp [hu, hme, hp, huid, hmd, hkey, hok]

theorem no_amount_gate_witness :
    ((-5 : ℚ) ≤ 0) ∧
    (approvePiPayment
        (ApproveEnv.mk true (some "u1") none none
          (some (Profile.mk "u1" none none none)) none (some "k") true "ok")
        (some (-5)) none (Metadata.mk none none none) =
      (.ok false, [.createPaymentRecord (-5) "" "approved", .approveCall])) :=
  ⟨by norm_num,
   no_amount_gate
     (ApproveEnv.mk true (some "u1") none none
       (some (Profile.mk "u1" none none none)) none (some "k") true "ok")
     none (Metadata.mk none none none) (Profile.mk "u1" none none none) "u1" (-5)
     rfl rfl rfl rfl rfl rfl rfl (by norm_num)⟩

/-- Claim C8: delivery-zone enforcement. First, for a metadata-supplied
destination, the zone check passes exactly when the destination country
equals the store country and, whenever the store has a nonempty
delivery-regions list, the city is in the list under allow-list mode (the
default when the flag is unset) and out of it under deny-list mode.
Second, on the spec's concrete store (country EG, regions [Cairo], allow
list), a full approval run fails for deliveryCity Alexandria with the
thrown zone message and succeeds for deliveryCity Cairo. -/
theorem delivery_zone_enforcement :
    (∀ store md profile country city,
        jsStr md.deliveryCountry = some country →
        jsStr md.deliveryCity = some city →
        (checkDeliveryZone store md profile = none ↔
          (store.country = country ∧
            ∀ regions, store.deliveryRegions = some regions → 0 < regions.length →
              (if store.isDeliveryRegionsAllowList.getD true
               then regions.contains city = true
               else regions.contains city = false)))) ∧
    (approvePiPayment
        { userFound := true, me1 := some "u1", me2 := none, me3 := none,
          profile := some { piUid := "u1", walletAddress := none, country := none, city := none },
          store := some { country := "EG", deliveryRegions := some ["Cairo"],
                          isDeliveryRegionsAllowList := some true, piWalletAddress := none },
          piApiKey := some "k", approveOk := true, approveBody := "" }
        (some 10) none
        { storeId := some 1, deliveryCountry := some "EG", deliveryCity := some "Alexandria" }
      = (.err "This store does not deliver to Alexandria.", [])) ∧
    (approvePiPayment
        { userFound := true, me1 := some "u1", me2 := none, me3 := none,
          profile := some { piUid := "u1", walletAddress := none, country := none, city := none },
          store := some { country := "EG", deliveryRegions := some ["Cairo"],
                          isDeliveryRegionsAllowList := some true, piWalletAddress := none },
          piApiKey := some "k", approveOk := true, approveBody := "" }
        (some 10) none
        { storeId := some 1, deliveryCountry := some "EG", deliveryCity := some "Cairo" }
      = (.ok false, [.createPaymentRecord 10 "" "approved", .approveCall])) := by
  refine ⟨?_, by rfl, by rfl⟩
  intro store md profile country city h1 h2
  unfold checkDeliveryZone
  rw [h1, h2]
  by_cases hc : store.country = country
  · cases hreg : store.deliveryRegions with
    | none => simp [Option.orElse, hc, hreg]
    | some regions =>
      by_cases hl : 0 < regions.length
      · cases hflag : store.isDeliveryRegionsAllowList.getD true with
        | true =>
          cases hin : regions.contains city with
          | true => simp [Option.orElse, hc, hreg, hl, hflag, hin]
          | false => simp [Option.orElse, hc, hreg, hl, hflag, hin]
        | false =>
          cases hin : regions.contains city with
          | true => simp [Option.orElse, hc, hreg, hl, hflag, hin]
          | false => simp [Option.orElse, hc, hreg, hl, hflag, hin]
      · simp [Option.orElse, hc, hreg, hl, Nat.not_lt, Nat.le_zero] at hl ⊢
  · simp [Option.orElse, hc]

theorem delivery_zone_enforcement_witness :
    (jsStr (Metadata.mk (some 1) (some "EG") (some "Alexandria")).deliveryCountry = some "EG") ∧
    (checkDeliveryZone
        (Store.mk "EG" (some ["Cairo"]) (some true) none)
        (Metadata.mk (some 1) (some "EG") (some "Alexandria"))
        (Profile.mk "u1" none none none) = none ↔
      ("EG" = "EG" ∧
        ∀ regions, (some ["Cairo"] : Option (List String)) = some regions → 0 < regions.length →
          (if (some true : Option Bool).getD true
           then regions.contains "Alexandria" = true
           else regions.contains "Alexandria" = false))) :=
  ⟨rfl,
   delivery_zone_enforcement.1
     (Store.mk "EG" (some ["Cairo"]) (some true) none)
     (Metadata.mk (some 1) (some "EG") (some "Alexandria"))
     (Profile.mk "u1" none none none) "EG" "Alexandria" rfl rfl⟩

/-- Claim C9: resolving an open report with dismiss schedules a store
payout of exactly the order total times one minus the commission rate,
the rate defaulting to five percent when the environment variable is
unset; resolving with refund schedules a refund to the customer of
exactly the full order total and schedules no store payout. On a
100-unit order with the default rate, the dismissed payout is exactly 95
and the refund is exactly 100. -/
theorem dispute_resolution_amounts :
    (∀ rate rep order oid note conv, rep.status = "open" →
        resolveReport rate true (some rep) (some order) oid "dismiss" note conv =
          .ok ([.patchReport "rejected" (note.getD "Report dismissed by store"),
                .schedulePayout order.storeId
                  (order.totalAmount * (1 - rate.getD (5 / 100))) oid,
                .patchOrder "delivered" (some "released")] ++
               (if conv then [.archiveConversation] else []))) ∧
    (∀ rate rep order oid note conv, rep.status = "open" →
        resolveReport rate true (some rep) (some order) oid "refund" note conv =
          .ok ([.patchReport "resolved" (note.getD "Refunded by store"),
                .patchOrder "cancelled" (some "refunded"),
                .scheduleRefund order.userId order.storeId order.totalAmount oid] ++
               (if conv then [.archiveConversation] else []))) ∧
    (resolveReport none true (some (Report.mk "open")) (some (ROrder.mk 7 3 100)) 11
        "dismiss" none false =
      .ok [.patchReport "rejected" "Report dismissed by store",
           .schedulePayout 3 95 11,
           .patchOrder "delivered" (some "released")]) ∧
    (resolveReport none true (some (Report.mk "open")) (some (ROrder.mk 7 3 100)) 11
        "refund" none false =
      .ok [.patchReport "resolved" "Refunded by store",
           .patchOrder "cancelled" (some "refunded"),
           .scheduleRefund 7 3 100 11]) := by
  refine ⟨?_, ?_, ?_, ?_⟩
  · intro rate rep order oid note conv h
    unfold resolveReport
    simp [h]
  · intro rate rep order oid note conv h
    unfold resolveReport
    simp [h]
  · have h95 : (100 : ℚ) * (1 - 5 / 100) = 95 := by norm_num
    unfold resolveReport
    simp [h95]
  · rfl

theorem dispute_resolution_amounts_witness :
    ((Report.mk "open").status = "open") ∧
    (resolveReport none true (some (Report.mk "open")) (some (ROrder.mk 7 3 100)) 11
        "dismiss" none true =
      .ok ([.patchReport "rejected" "Report dismissed by store",
            .schedulePayout 3 ((100 : ℚ) * (1 - (none : Option ℚ).getD (5 / 100))) 11,
            .patchOrder "delivered" (some "released")] ++
           (if true then [.archiveConversation] else []))) :=
  ⟨rfl,
   dispute_resolution_amounts.1 none (Report.mk "open") (ROrder.mk 7 3 100) 11 none true rfl⟩

/-- Claim C10: a webhook whose signature header is absent is rejected as
invalid regardless of the configured secret — including when no secret is
configured at all — while the development-mode fallback that accepts the
payload when no secret is configured applies only to payloads carrying a
signature header. -/
theorem webhook_rejects_unsigned :
    (∀ hmacMatches secret body,
        verifyPiWebhook hmacMatches secret none body = (false, body)) ∧
    (∀ hmacMatches body,
        verifyPiWebhook hmacMatches none (some "sha256=abc") body = (true, body)) :=
  ⟨fun _ _ _ => rfl, fun _ _ => rfl⟩
